/-
Verification of the InboxAI backend core against its specification.

The definitions below are a shallow embedding of the Python sources:
  backend/app/services/intent_parser.py
  backend/app/services/email_service.py
  backend/app/services/ai_service.py   (JSON-parsing outcome model)
  backend/app/services/session_service.py
  backend/app/services/chat_service.py

Modelling conventions:
  * Python strings are handled as `List Char`; API-level functions take
    `String` and convert once.
  * Python `re` is embedded as a small regex AST (`RE`) evaluated by a
    fuel-based backtracking matcher `reRun` that mirrors CPython's
    leftmost search, greedy/lazy preference order, word boundaries and
    negative lookahead.  `.` matches any character except a newline;
    `$` is modelled as end-of-string (messages contain no trailing
    newline).  Literal characters match case-insensitively, matching
    the sources, which either lower-case the input first or pass
    re.IGNORECASE.
  * `float` confidences are modelled as `Rat`; the literals involved
    (0.9, 0.85, 0.4, 0.5) compare identically in both representations.
  * Collaborator calls (Gmail transport, Gemini completions, token
    refresh) are oracle values passed in explicitly; a raised Python
    exception is an `Except.error` / failure outcome, and the
    `try/except` blocks of the sources are folded into the same place
    they catch in the code.
  * Mutation of the shared session dict is explicit state passing: each
    orchestrator step returns the response, the session after the step,
    and the list of transport side effects it performed.
-/
import Mathlib

namespace InboxAI

/-! ### Character classes and low-level string helpers -/

/-- Python `\w` on ASCII input: letters, digits, underscore. -/
def isWordChar (c : Char) : Bool :=
  c.isAlpha || c.isDigit || c = '_'

/-- Python `\s`: the six ASCII whitespace characters. -/
def isPySpace (c : Char) : Bool :=
  c = ' ' || c = '\t' || c = '\n' || c = '\r' || c = '\x0b' || c = '\x0c'

/-- ASCII lower-casing, as `str.lower` on the ASCII inputs involved. -/
def lowerChar (c : Char) : Char := c.toLower

def lowerL (s : List Char) : List Char := s.map lowerChar

/-- Python `str.strip()` : drop leading and trailing whitespace. -/
def stripL (s : List Char) : List Char :=
  ((s.dropWhile isPySpace).reverse.dropWhile isPySpace).reverse

/-- Substring containment, Python `needle in hay`. -/
def containsSub (hay needle : List Char) : Bool :=
  match hay with
  | [] => needle.isEmpty
  | _ :: rest => needle.isPrefixOf hay || containsSub rest needle

/-- Worker for `splitWs`: `cur` is the current word, reversed. -/
def splitWsAux (s : List Char) (cur : List Char) : List (List Char) :=
  match s with
  | [] => if cur.isEmpty then [] else [cur.reverse]
  | c :: rest =>
    if isPySpace c then
      if cur.isEmpty then splitWsAux rest [] else cur.reverse :: splitWsAux rest []
    else splitWsAux rest (c :: cur)

/-- Python `str.split()` with no argument: split on runs of whitespace. -/
def splitWs (s : List Char) : List (List Char) := splitWsAux s []

/-- Python `str.replace(pat, "")` : remove every occurrence of a
nonempty `pat`. -/
def removeAll (s pat : List Char) : List Char :=
  match s with
  | [] => []
  | c :: rest =>
    if pat.isPrefixOf (c :: rest) && !pat.isEmpty then
      removeAll ((c :: rest).drop pat.length) pat
    else c :: removeAll rest pat
termination_by s.length
decreasing_by
  · rename_i h
    rw [Bool.and_eq_true] at h
    have hp : 0 < pat.length := by
      cases pat with
      | nil => simp at h
      | cons a l => simp
    simp only [List.length_drop, List.length_cons]
    omega
  · simp only [List.length_cons]; omega

/-- Digits of a captured group to a natural number, Python `int(...)`. -/
def digitsToNat (s : List Char) : Nat :=
  s.foldl (fun acc c => 10 * acc + (c.toNat - '0'.toNat)) 0

/-! ### Regex AST -/

/-- A character-class atom of a pattern. -/
inductive CharCls where
  /-- `.` : any character except a newline. -/
  | anyc : CharCls
  /-- `\d` -/
  | digit : CharCls
  /-- `\w` -/
  | wordc : CharCls
  /-- `\s` -/
  | space : CharCls
  /-- `[...]` over explicit characters. -/
  | oneOf (cs : List Char) : CharCls
deriving DecidableEq

def CharCls.matches : CharCls → Char → Bool
  | .anyc, c => c ≠ '\n'
  | .digit, c => c.isDigit
  | .wordc, c => isWordChar c
  | .space, c => isPySpace c
  | .oneOf cs, c => cs.contains c

/-- Regex abstract syntax; `grp` marks capture group 1. -/
inductive RE where
  | eps : RE
  | lit (c : Char) : RE
  | cls (k : CharCls) : RE
  | seq (a b : RE) : RE
  | alt (a b : RE) : RE
  /-- `a*` (`lazy = true` for `*?`). -/
  | star (a : RE) (lazy : Bool) : RE
  /-- `a?` (`lazy = true` for `??`). -/
  | opt (a : RE) (lazy : Bool) : RE
  /-- capture group -/
  | grp (a : RE) : RE
  /-- `\b` -/
  | wordB : RE
  /-- `^` -/
  | bos : RE
  /-- `$` (end of string) -/
  | eos : RE
  /-- negative lookahead `(?! a)` -/
  | nla (a : RE) : RE
deriving DecidableEq

/-- Sequence of a list of regexes. -/
def rcat (l : List RE) : RE := l.foldr RE.seq RE.eps

/-- Alternation of a nonempty list of regexes, left-preferring. -/
def raltL (l : List RE) : RE :=
  match l with
  | [] => RE.eps
  | [r] => r
  | r :: rest => RE.alt r (raltL rest)

/-- Literal word: sequence of case-insensitive character literals. -/
def rstr (s : String) : RE := rcat (s.toList.map RE.lit)

/-- `a+` -/
def rplus (a : RE) : RE := RE.seq a (RE.star a false)

/-- `a+?` -/
def rplusLazy (a : RE) : RE := RE.seq a (RE.star a true)

/-! ### Backtracking matcher

`reRun fuel re prev rest k` attempts to match `re` at the position whose
already-consumed neighbour character is `prev` and whose remaining input
is `rest`; `k` is the continuation receiving the position after the
match.  The overall result is `none` for no match and `some cap` for a
match capturing `cap` in group 1 (or `none` inside when group 1 did not
participate).  `fuel` bounds expression nesting plus star unfoldings and
only needs to be large enough; `reFuel` below always is for the
patterns of this development. -/

abbrev MRes := Option (Option (List Char))

def boundaryAt (prev : Option Char) (rest : List Char) : Bool :=
  let l := match prev with | some c => isWordChar c | none => false
  let r := match rest with | c :: _ => isWordChar c | [] => false
  l != r

def reRun (fuel : Nat) (re : RE) (prev : Option Char) (rest : List Char)
    (k : Option Char → List Char → MRes) : MRes :=
  match fuel with
  | 0 => none
  | fuel + 1 =>
    match re with
    | .eps => k prev rest
    | .lit c =>
      match rest with
      | [] => none
      | x :: xs => if lowerChar x = lowerChar c then k (some x) xs else none
    | .cls kc =>
      match rest with
      | [] => none
      | x :: xs => if kc.matches x then k (some x) xs else none
    | .seq a b => reRun fuel a prev rest (fun p r => reRun fuel b p r k)
    | .alt a b =>
      match reRun fuel a prev rest k with
      | some res => some res
      | none => reRun fuel b prev rest k
    | .star a lazy =>
      if lazy then
        match k prev rest with
        | some res => some res
        | none =>
          reRun fuel a prev rest (fun p r =>
            if r.length < rest.length then reRun fuel (.star a lazy) p r k else none)
      else
        match reRun fuel a prev rest (fun p r =>
            if r.length < rest.length then reRun fuel (.star a lazy) p r k else none) with
        | some res => some res
        | none => k prev rest
    | .opt a lazy =>
      if lazy then
        match k prev rest with
        | some res => some res
        | none => reRun fuel a prev rest k
      else
        match reRun fuel a prev rest k with
        | some res => some res
        | none => k prev rest
    | .grp a =>
      reRun fuel a prev rest (fun p r =>
        match k p r with
        | none => none
        | some _ => some (some (rest.take (rest.length - r.length))))
    | .wordB => if boundaryAt prev rest then k prev rest else none
    | .bos => match prev with | none => k prev rest | some _ => none
    | .eos => match rest with | [] => k prev rest | _ :: _ => none
    | .nla a =>
      match reRun fuel a prev rest (fun _ _ => some none) with
      | some _ => none
      | none => k prev rest

/-- Fuel that always suffices: nesting of the fixed patterns is below
50, and each star iteration consumes at least one character. -/
def reFuel (s : List Char) : Nat := 50 * s.length + 100

/-- Python `re.search`: try a match at each start position from the
left; at the first position admitting one, return its group-1 capture
(`some none` when the pattern has no participating group). -/
def searchFrom (fuel : Nat) (re : RE) (prev : Option Char) (rest : List Char) : MRes :=
  match reRun fuel re prev rest (fun _ _ => some none) with
  | some cap => some cap
  | none =>
    match rest with
    | [] => none
    | c :: cs => searchFrom fuel re (some c) cs

def reSearch (re : RE) (s : List Char) : MRes :=
  searchFrom (reFuel s) re none s

/-- Boolean match test (`re.search(...) is not None`). -/
def reTest (re : RE) (s : List Char) : Bool := (reSearch re s).isSome

/-- Group-1 capture of the first match, when both exist. -/
def reGroup1 (re : RE) (s : List Char) : Option (List Char) :=
  match reSearch re s with
  | some (some g) => some g
  | _ => none

/-! ### Pattern shorthands -/

/-- `\s+` -/
def sp1 : RE := rplus (.cls .space)

/-- `\s*` -/
def sp0 : RE := RE.star (.cls .space) false

/-- `.*` -/
def dotStar : RE := RE.star (.cls .anyc) false

/-- `.?` -/
def dotOpt : RE := RE.opt (.cls .anyc) false

/-- `(\d+)` -/
def dgrp : RE := RE.grp (rplus (.cls .digit))

/-- `\w+` -/
def wplus : RE := rplus (.cls .wordc)

/-- `["\']?` -/
def quoteOpt : RE := RE.opt (.cls (.oneOf ['"', '\''])) false

/-- `[:\s]+` -/
def colonSp : RE := rplus (.cls (.oneOf [':', ' ', '\t', '\n', '\r', '\x0b', '\x0c']))

/-- a word with an optional trailing `s`, e.g. `emails?` -/
def optS (s : String) : RE := RE.seq (rstr s) (.opt (.lit 's') false)

/-! ### intent_parser.py : intents, tables, rule-based parsing -/

/-- `Intent` enum of intent_parser.py. -/
inductive Intent where
  | READ_EMAILS | REPLY | DELETE | CATEGORIZE | DIGEST
  | CONFIRM | CANCEL | HELP | GREETING | UNKNOWN
deriving DecidableEq

/-- Extracted parameters; Python stores these in a `dict` whose keys are
only ever `email_ref`, `reply_content`, `count`, `query` — an absent key
is `none`.  (Rule extraction only sets a key on a truthy value, which
the constructors below respect.) -/
structure Params where
  email_ref : Option (List Char) := none
  reply_content : Option (List Char) := none
  count : Option Nat := none
  query : Option (List Char) := none
deriving DecidableEq

/-- `ParsedIntent` dataclass. -/
structure ParsedIntent where
  intent : Intent
  confidence : Rat
  params : Params
  requires_confirmation : Bool := false
deriving DecidableEq

/-- 0.85, written as a reduced fraction so that the kernel can
evaluate comparisons on it. -/
def CONFIDENCE_THRESHOLD_HIGH : Rat := ⟨17, 20, by decide, by decide⟩

/-- 0.4, written as a reduced fraction. -/
def CONFIDENCE_THRESHOLD_LOW : Rat := ⟨2, 5, by decide, by decide⟩

/-- 0.9, the confidence of every rule match. -/
def RULE_CONFIDENCE : Rat := ⟨9, 10, by decide, by decide⟩

def ALWAYS_CONFIRM : List Intent := [.DELETE, .REPLY]

/-- `INTENT_PATTERNS[Intent.READ_EMAILS]`. -/
def READ_EMAILS_PATTERNS : List RE := [
  rcat [.wordB, .grp (raltL [rstr "show", rstr "check", rstr "read", rstr "get",
      rstr "fetch", rstr "see", rstr "view", rstr "display", rstr "list", rstr "open"]),
    .wordB, dotStar, .wordB,
    .grp (raltL [rstr "email", rstr "inbox", rstr "mail", optS "message"]), .wordB],
  rcat [.wordB, .grp (raltL [rstr "what", rstr "any", rstr "new"]), .wordB, dotStar,
    .wordB, .grp (raltL [rstr "email", rstr "mail", rstr "inbox"]), .wordB],
  rcat [.bos, .grp (raltL [optS "email", rstr "inbox", rstr "mail"]), .eos],
  rcat [.wordB, rstr "my", sp1, .grp (raltL [optS "email", rstr "inbox", rstr "mail"]), .wordB]]

/-- `INTENT_PATTERNS[Intent.REPLY]`. -/
def REPLY_PATTERNS : List RE := [
  rcat [.wordB, rstr "reply", .wordB],
  rcat [.wordB, rstr "respond", .wordB],
  rcat [.wordB, rstr "send", sp1, .opt (.grp (RE.seq (rstr "a") sp1)) false,
    rstr "response", .wordB],
  rcat [.wordB, rstr "answer", .wordB, dotStar, .wordB, rstr "email", .wordB],
  rcat [.wordB, rstr "write", sp1, rstr "back", .wordB]]

/-- `INTENT_PATTERNS[Intent.DELETE]`. -/
def DELETE_PATTERNS : List RE := [
  rcat [.wordB, rstr "delete", .wordB],
  rcat [.wordB, rstr "remove", .wordB],
  rcat [.wordB, rstr "trash", .wordB],
  rcat [.wordB, rstr "get", sp1, rstr "rid", sp1, rstr "of", .wordB],
  rcat [.wordB, rstr "discard", .wordB]]

/-- `INTENT_PATTERNS[Intent.CATEGORIZE]`. -/
def CATEGORIZE_PATTERNS : List RE := [
  rcat [.wordB, rstr "categorize", .wordB],
  rcat [.wordB, rstr "group", .wordB],
  rcat [.wordB, rstr "organize", .wordB],
  rcat [.wordB, rstr "sort", .wordB],
  rcat [.wordB, rstr "classify", .wordB]]

/-- `INTENT_PATTERNS[Intent.DIGEST]`. -/
def DIGEST_PATTERNS : List RE := [
  rcat [.wordB, rstr "digest", .wordB],
  rcat [.wordB, rstr "summary", .wordB, dotStar, .wordB,
    .grp (raltL [rstr "inbox", rstr "email", rstr "day", rstr "today"]), .wordB],
  rcat [.wordB, rstr "today", dotOpt, .lit 's', sp1,
    .grp (raltL [optS "email", rstr "summary"]), .wordB],
  rcat [.wordB, rstr "daily", sp1,
    .grp (raltL [rstr "digest", rstr "summary", rstr "report"]), .wordB],
  rcat [.wordB, rstr "what", dotOpt, .lit 's', sp1,
    .grp (raltL [rstr "new", rstr "happening", rstr "important"]), .wordB]]

/-- `INTENT_PATTERNS[Intent.CONFIRM]`. -/
def CONFIRM_PATTERNS : List RE := [
  rcat [.bos, .grp (raltL [rstr "yes", rstr "yeah", rstr "yep", rstr "yup", rstr "sure",
    rstr "ok", rstr "okay", rstr "confirm",
    rcat [rstr "do", sp1, rstr "it"], rcat [rstr "send", sp1, rstr "it"],
    rstr "proceed", rcat [rstr "go", sp1, rstr "ahead"]]), .eos],
  rcat [.bos, .grp (raltL [.lit 'y', rstr "yes"]), sp0,
    .opt (.cls (.oneOf ['.', '!'])) false, .eos],
  rcat [.wordB, rstr "confirm", .opt (.grp (rstr "ed")) false, .wordB],
  rcat [.wordB, rstr "approve", .opt (.lit 'd') false, .wordB]]

/-- `INTENT_PATTERNS[Intent.CANCEL]`. -/
def CANCEL_PATTERNS : List RE := [
  rcat [.bos, .grp (raltL [rstr "no", rstr "nope", rstr "nah", rstr "cancel", rstr "stop",
    rstr "abort", rstr "nevermind", rcat [rstr "never", sp1, rstr "mind"]]), .eos],
  rcat [.bos, .lit 'n', .eos],
  rcat [.wordB, rstr "don", dotOpt, .lit 't', .wordB],
  rcat [.wordB, rstr "cancel", .wordB]]

/-- `INTENT_PATTERNS[Intent.HELP]`. -/
def HELP_PATTERNS : List RE := [
  rcat [.bos, rstr "help", .eos],
  rcat [.wordB, rstr "what", sp1, rstr "can", sp1, rstr "you", sp1, rstr "do", .wordB],
  rcat [.wordB, rstr "how", sp1, .grp (raltL [rstr "do", rstr "does"]), sp1,
    .grp (raltL [rstr "this", rstr "it"]), sp1, rstr "work", .wordB],
  rcat [.wordB, optS "command", .wordB],
  rcat [.wordB, optS "feature", .wordB]]

/-- `INTENT_PATTERNS[Intent.GREETING]`. -/
def GREETING_PATTERNS : List RE := [
  rcat [.bos, .grp (raltL [rstr "hi", rstr "hello", rstr "hey", rstr "greetings",
    rstr "howdy", rcat [rstr "good", sp1,
      .grp (raltL [rstr "morning", rstr "afternoon", rstr "evening"])]]),
    .star (.cls (.oneOf [' ', '\t', '\n', '\r', '\x0b', '\x0c', '!', '.'])) false, .eos]]

/-- The `INTENT_PATTERNS` table, in the source's (dict-insertion)
order. -/
def INTENT_PATTERNS : List (Intent × List RE) := [
  (.READ_EMAILS, READ_EMAILS_PATTERNS),
  (.REPLY, REPLY_PATTERNS),
  (.DELETE, DELETE_PATTERNS),
  (.CATEGORIZE, CATEGORIZE_PATTERNS),
  (.DIGEST, DIGEST_PATTERNS),
  (.CONFIRM, CONFIRM_PATTERNS),
  (.CANCEL, CANCEL_PATTERNS),
  (.HELP, HELP_PATTERNS),
  (.GREETING, GREETING_PATTERNS)]

/-- `EMAIL_REF_PATTERNS["index"]`. -/
def EMAIL_REF_INDEX : List RE := [
  RE.seq (.lit '#') dgrp,
  rcat [.wordB, rstr "email", sp0, dgrp, .wordB],
  rcat [.wordB, rstr "number", sp0, dgrp, .wordB],
  rcat [.bos, dgrp, .eos],
  rcat [.wordB, .grp (raltL [rstr "first", rstr "second", rstr "third", rstr "fourth",
    rstr "fifth", rstr "last"]), .wordB]]

/-- `EMAIL_REF_PATTERNS["sender"]`. -/
def EMAIL_REF_SENDER : List RE := [
  rcat [.wordB, rstr "from", sp1, .grp wplus, .wordB],
  rcat [.wordB, .grp wplus, dotOpt, .lit 's', sp1, rstr "email", .wordB],
  rcat [.wordB, rstr "the", sp1, .grp wplus, sp1, rstr "one", .wordB]]

/-- `EMAIL_REF_PATTERNS["subject"]`. -/
def EMAIL_REF_SUBJECT : List RE := [
  rcat [.wordB, rstr "about", sp1, .grp (rplus (.cls .anyc))],
  rcat [.wordB, rstr "regarding", sp1, .grp (rplus (.cls .anyc))]]

/-- `REPLY_CONTENT_PATTERNS`, in source order. -/
def REPLY_CONTENT_PATTERNS : List RE := [
  rcat [rstr "reply:", sp0, quoteOpt, .grp (rplusLazy (.cls .anyc)), quoteOpt, .eos],
  rcat [rstr "reply", sp1, .nla (RE.seq (rstr "to") .wordB), quoteOpt,
    .grp (rplusLazy (.cls .anyc)), quoteOpt, .eos],
  rcat [rstr "respond", sp1, rstr "with", colonSp, quoteOpt,
    .grp (rplusLazy (.cls .anyc)), quoteOpt, .eos],
  rcat [rstr "say", colonSp, quoteOpt, .grp (rplusLazy (.cls .anyc)), quoteOpt, .eos],
  rcat [rstr "tell", sp1, rstr "them", colonSp, quoteOpt,
    .grp (rplusLazy (.cls .anyc)), quoteOpt, .eos]]

/-- `(\d+)\s+emails?` of `extract_params`. -/
def COUNT_PATTERN : RE := rcat [dgrp, sp1, optS "email"]

/-- First pattern of a list whose search yields a group-1 capture. -/
def firstCapture (pats : List RE) (s : List Char) : Option (List Char) :=
  match pats with
  | [] => none
  | p :: rest =>
    match reGroup1 p s with
    | some g => some g
    | none => firstCapture rest s

/-- `extract_email_reference`: index patterns, then sender, then
subject; returns the first group-1 capture. -/
def extract_email_reference (message : List Char) : Option (List Char) :=
  let ml := lowerL message
  match firstCapture EMAIL_REF_INDEX ml with
  | some g => some g
  | none =>
    match firstCapture EMAIL_REF_SENDER ml with
    | some g => some g
    | none => firstCapture EMAIL_REF_SUBJECT ml

/-- Text after the first `:` of the message, if any (`split(":", 1)`). -/
def afterFirstColon (s : List Char) : Option (List Char) :=
  match s with
  | [] => none
  | c :: rest => if c = ':' then some rest else afterFirstColon rest

/-- `extract_reply_content`: ordered patterns (stripped group 1), then
the text after the first colon when its stripped length exceeds 2. -/
def extract_reply_content (message : List Char) : Option (List Char) :=
  match firstCapture REPLY_CONTENT_PATTERNS message with
  | some g => some (stripL g)
  | none =>
    match afterFirstColon message with
    | some tail => if 2 < (stripL tail).length then some (stripL tail) else none
    | none => none

/-- `extract_params` (receives the lower-cased message); a key is only
stored when its value is truthy, hence the emptiness guards. -/
def extract_params (message : List Char) (intent : Intent) : Params :=
  let er := match extract_email_reference message with
    | some r => if r.isEmpty then none else some r
    | none => none
  let rc := if intent = .REPLY then
      match extract_reply_content message with
      | some r => if r.isEmpty then none else some r
      | none => none
    else none
  let ct := if intent = .READ_EMAILS then (reGroup1 COUNT_PATTERN message).map digitsToNat
    else none
  { email_ref := er, reply_content := rc, count := ct, query := none }

/-- First intent of the table one of whose patterns matches. -/
def findIntent (table : List (Intent × List RE)) (ml : List Char) : Option Intent :=
  match table with
  | [] => none
  | (i, pats) :: rest =>
    if pats.any (fun p => reTest p ml) then some i else findIntent rest ml

/-- `rule_based_parse`: first pattern of the ordered table that matches
the lower-cased, stripped message wins, with confidence 0.9. -/
def rule_based_parse (message : String) : Option ParsedIntent :=
  match findIntent INTENT_PATTERNS (stripL (lowerL message.toList)) with
  | none => none
  | some i => some {
      intent := i
      confidence := RULE_CONFIDENCE
      params := extract_params (stripL (lowerL message.toList)) i
      requires_confirmation := ALWAYS_CONFIRM.contains i }

/-! ### parse_message with the generative fallback as an oracle -/

/-- Outcome of `ai_service.parse_intent`, already shaped by the
`.get` defaults of parse_message (`confidence` defaults to 0.5 and
`params` to the empty dict inside the oracle value). -/
structure AIParsed where
  intent_str : List Char
  confidence : Rat
  params : Params
deriving DecidableEq

/-- `Intent(intent_str)` with `ValueError` mapped to UNKNOWN. -/
def intentOfString (s : List Char) : Intent :=
  if s = "READ_EMAILS".toList then .READ_EMAILS
  else if s = "REPLY".toList then .REPLY
  else if s = "DELETE".toList then .DELETE
  else if s = "CATEGORIZE".toList then .CATEGORIZE
  else if s = "DIGEST".toList then .DIGEST
  else if s = "CONFIRM".toList then .CONFIRM
  else if s = "CANCEL".toList then .CANCEL
  else if s = "HELP".toList then .HELP
  else if s = "GREETING".toList then .GREETING
  else .UNKNOWN

/-- `{**rule_params, **ai_params}`: a key present in the fallback's
params wins; absent fallback keys keep the rule-extracted value. -/
def mergeParams (rule ai : Params) : Params := {
  email_ref := match ai.email_ref with | some v => some v | none => rule.email_ref
  reply_content := match ai.reply_content with | some v => some v | none => rule.reply_content
  count := match ai.count with | some v => some v | none => rule.count
  query := match ai.query with | some v => some v | none => rule.query }

/-- The `try` block of parse_message that invokes the fallback;
`Except.error` is any exception raised inside it. -/
def aiBranch (rule_result : Option ParsedIntent) (ai : Except Unit AIParsed) :
    ParsedIntent × Bool :=
  match ai with
  | .ok a =>
    let intent := intentOfString a.intent_str
    let params := match rule_result with
      | some r => mergeParams r.params a.params
      | none => a.params
    ({ intent := intent, confidence := a.confidence, params := params,
       requires_confirmation := ALWAYS_CONFIRM.contains intent }, true)
  | .error _ =>
    match rule_result with
    | some r => (r, true)
    | none => ({ intent := .UNKNOWN, confidence := 0, params := {} }, true)

/-- `parse_message`.  The second component records whether the
generative fallback collaborator was invoked (true exactly on the paths
where the source awaits `ai_parse_intent`). -/
def parse_message (message : String) (has_pending_action : Bool)
    (ai : Except Unit AIParsed) : ParsedIntent × Bool :=
  let rule_result := rule_based_parse message
  let priority : Option ParsedIntent :=
    if has_pending_action then
      match rule_result with
      | some q => if q.intent = .CONFIRM || q.intent = .CANCEL then some q else none
      | none => none
    else none
  match priority with
  | some q => (q, false)
  | none =>
    match rule_result with
    | some r =>
      if CONFIDENCE_THRESHOLD_HIGH ≤ r.confidence then (r, false)
      else aiBranch rule_result ai
    | none => aiBranch none ai

/-! ### email_service.py : cache and reference resolution -/

/-- Decimal digits of a natural number (kernel-friendly `str(n)`). -/
def natToCharsAux : Nat → Nat → List Char → List Char
  | 0, _, acc => acc
  | fuel + 1, n, acc =>
    let d := Char.ofNat (n % 10 + '0'.toNat)
    if n < 10 then d :: acc else natToCharsAux fuel (n / 10) (d :: acc)

def natToChars (n : Nat) : List Char := natToCharsAux (n + 1) n []

/-- A fetched `Email` object (gmail_client result). -/
structure Email where
  id : List Char
  sender_name : List Char
  sender_email : List Char
  subject : List Char
  body : List Char
  snippet : List Char
  date : List Char
deriving DecidableEq

/-- A cached email dict as built by `_cache_emails` (1-based index). -/
structure EmailRec where
  index : Nat
  id : List Char
  sender_name : List Char
  sender_email : List Char
  subject : List Char
  body : List Char
  snippet : List Char
  date : List Char
deriving DecidableEq

/-- `_cache_emails`: full cache replacement with 1-based indices. -/
def cache_emails (emails : List Email) : List EmailRec :=
  emails.enum.map (fun p =>
    { index := p.1 + 1, id := p.2.id, sender_name := p.2.sender_name,
      sender_email := p.2.sender_email, subject := p.2.subject,
      body := p.2.body, snippet := p.2.snippet, date := p.2.date })

/-- The `ordinals` dict of `_resolve_index`, in insertion order;
`last` maps to the cache length. -/
def ordinalsList (cacheLen : Nat) : List (List Char × Nat) := [
  ("first".toList, 1), ("second".toList, 2), ("third".toList, 3),
  ("fourth".toList, 4), ("fifth".toList, 5),
  ("1st".toList, 1), ("2nd".toList, 2), ("3rd".toList, 3),
  ("4th".toList, 4), ("5th".toList, 5),
  ("last".toList, cacheLen), ("latest".toList, 1), ("most recent".toList, 1)]

/-- Ordinal scan of `_resolve_index`: a word contained in the reference
whose index is in bounds returns that cache entry; out-of-bounds hits
fall through to the next word. -/
def findOrdinal (reference : List Char) (cache : List EmailRec)
    (l : List (List Char × Nat)) : Option EmailRec :=
  match l with
  | [] => none
  | (w, idx) :: rest =>
    if containsSub reference w && decide (1 ≤ idx) && decide (idx ≤ cache.length) then
      cache.get? (idx - 1)
    else findOrdinal reference cache rest

/-- The numeric patterns of `_resolve_index` (no word boundaries here,
unlike the intent_parser table). -/
def RESOLVE_INDEX_PATTERNS : List RE := [
  RE.seq (.lit '#') dgrp,
  rcat [rstr "email", sp0, dgrp],
  rcat [rstr "number", sp0, dgrp],
  rcat [.bos, dgrp, .eos]]

/-- Numeric scan of `_resolve_index`: an in-bounds capture returns the
entry, an out-of-bounds one falls through to the next pattern. -/
def resolveNumeric (pats : List RE) (reference : List Char) (cache : List EmailRec) :
    Option EmailRec :=
  match pats with
  | [] => none
  | p :: rest =>
    match reGroup1 p reference with
    | some g =>
      let idx := digitsToNat g
      if 1 ≤ idx && idx ≤ cache.length then cache.get? (idx - 1)
      else resolveNumeric rest reference cache
    | none => resolveNumeric rest reference cache

/-- `_resolve_index`. -/
def resolve_index (reference : List Char) (cache : List EmailRec) : Option EmailRec :=
  match findOrdinal reference cache (ordinalsList cache.length) with
  | some e => some e
  | none => resolveNumeric RESOLVE_INDEX_PATTERNS reference cache

/-- Sender patterns of `_resolve_sender` (the second uses a literal
apostrophe, unlike the intent_parser variant). -/
def RESOLVE_SENDER_PATTERNS : List RE := [
  rcat [rstr "from", sp1, .grp wplus],
  rcat [.grp wplus, .lit '\'', .lit 's', sp1, rstr "email"],
  rcat [rstr "the", sp1, .grp wplus, sp1, rstr "one"],
  rcat [rstr "the", sp1, .grp wplus, sp1, rstr "email"]]

/-- Pattern phase of `_resolve_sender`: capture, lower-case it, first
cache entry whose sender name or address contains it; pattern misses
fall through. -/
def senderPatternScan (pats : List RE) (reference : List Char) (cache : List EmailRec) :
    Option EmailRec :=
  match pats with
  | [] => none
  | p :: rest =>
    match reGroup1 p reference with
    | some g =>
      let ss := lowerL g
      match cache.find? (fun e =>
          containsSub (lowerL e.sender_name) ss || containsSub (lowerL e.sender_email) ss) with
      | some e => some e
      | none => senderPatternScan rest reference cache
    | none => senderPatternScan rest reference cache

/-- `_resolve_sender`: patterns first, then the token-overlap scan over
the reference minus the words "from" and "email". -/
def resolve_sender (reference : List Char) (cache : List EmailRec) : Option EmailRec :=
  match senderPatternScan RESOLVE_SENDER_PATTERNS reference cache with
  | some e => some e
  | none =>
    let words := splitWs (removeAll (removeAll reference "from".toList) "email".toList)
    cache.find? (fun e =>
      let combined := lowerL (e.sender_name ++ " ".toList ++ e.sender_email)
      words.any (fun w => 2 < w.length && containsSub combined w))

/-- Subject patterns of `_resolve_subject`. -/
def RESOLVE_SUBJECT_PATTERNS : List RE := [
  rcat [rstr "about", sp1, .grp (rplus (.cls .anyc))],
  rcat [rstr "regarding", sp1, .grp (rplus (.cls .anyc))],
  rcat [rstr "re:", sp0, .grp (rplus (.cls .anyc))]]

/-- Pattern phase of `_resolve_subject`. -/
def subjectPatternScan (pats : List RE) (reference : List Char) (cache : List EmailRec) :
    Option EmailRec :=
  match pats with
  | [] => none
  | p :: rest =>
    match reGroup1 p reference with
    | some g =>
      let topic := stripL (lowerL g)
      match cache.find? (fun e => containsSub (lowerL e.subject) topic) with
      | some e => some e
      | none => subjectPatternScan rest reference cache
    | none => subjectPatternScan rest reference cache

/-- `_resolve_subject`: patterns, then token overlap with words of
length above 3. -/
def resolve_subject (reference : List Char) (cache : List EmailRec) : Option EmailRec :=
  match subjectPatternScan RESOLVE_SUBJECT_PATTERNS reference cache with
  | some e => some e
  | none =>
    let words := splitWs reference
    cache.find? (fun e =>
      words.any (fun w => 3 < w.length && containsSub (lowerL e.subject) w))

/-- `resolve_email_reference`: index, then sender, then subject, over
the lower-cased, stripped reference; empty cache resolves nothing. -/
def resolve_email_reference (reference : List Char) (cache : List EmailRec) :
    Option EmailRec :=
  if cache.isEmpty then none
  else
    let r := stripL (lowerL reference)
    match resolve_index r cache with
    | some e => some e
    | none =>
      match resolve_sender r cache with
      | some e => some e
      | none => resolve_subject r cache

/-! ### ai_service.py : JSON-completion outcomes -/

/-- Outcome of a `parse_json_response` call, as seen by its caller.
`aiFail` is an `AIError` raised by `complete` (AI unavailable, blocked,
empty answer); `parseFail` a `json.JSONDecodeError`; in both cases
`parse_json_response` returns the caller-supplied default.  `okDict`
carries the payload of a parsed JSON object, and `nonDict` is a parsed
JSON value that is not an object, on which the caller's `.get` raises. -/
inductive JsonOutcome (α : Type) where
  | aiFail : JsonOutcome α
  | parseFail : JsonOutcome α
  | okDict (a : α) : JsonOutcome α
  | nonDict : JsonOutcome α
deriving DecidableEq

/-- One category group of `categorize_emails`. -/
structure Category where
  name : List Char
  email_indices : List Nat
  summary : List Char
deriving DecidableEq

/-- `ai_service.categorize_emails`.  On `aiFail`/`parseFail` the inner
`parse_json_response` returns the default `{"categories": []}`, so the
function returns the empty list; its own `except Exception` catch-all
(the single "All Emails" group) is reached only when the parsed JSON is
not a dict and `result.get` raises. -/
def categorize_emails (emails : List EmailRec) (o : JsonOutcome (List Category)) :
    List Category :=
  match o with
  | .okDict cats => cats
  | .aiFail => []
  | .parseFail => []
  | .nonDict => [{
      name := "All Emails".toList,
      email_indices := emails.map (·.index),
      summary := natToChars emails.length ++ " emails".toList }]

/-- A digest payload. -/
structure Digest where
  summary : List Char
  key_emails : List (Nat × List Char)
  suggested_actions : List (List Char)
deriving DecidableEq

/-- `ai_service.generate_digest`.  On `aiFail`/`parseFail` the inner
call returns the default summary; a non-dict JSON value is returned
as-is and makes the *caller's* `digest.get` raise, modelled as
`.error ()` at this boundary.  (Its own `except Exception` branch is
unreachable because `parse_json_response` swallows failures.) -/
def generate_digest (emails : List EmailRec) (o : JsonOutcome Digest) :
    Except Unit Digest :=
  if emails.isEmpty then
    .ok { summary := "No emails to summarize today.".toList, key_emails := [],
          suggested_actions := [] }
  else
    match o with
    | .okDict d => .ok d
    | .aiFail => .ok { summary := "You have ".toList ++ natToChars emails.length ++
        " emails today.".toList, key_emails := [], suggested_actions := [] }
    | .parseFail => .ok { summary := "You have ".toList ++ natToChars emails.length ++
        " emails today.".toList, key_emails := [], suggested_actions := [] }
    | .nonDict => .error ()

/-! ### chat_service.py : session state, responses, orchestration

The shared session dict is explicit state; each step returns the
response, the session afterwards, and the transport side effects
performed.  An exception raised by a collaborator is its `Except.error`
outcome, and the `try/except` ladder of `process_message` (which turns
typed app errors into an `error`-typed response carrying the error's
message) is applied at the point the exception would propagate from, so
session mutations made before the raise persist, as they do in the
mutable source. -/

/-- The stored payload of a pending confirmation
(`session["pending_data"]`); `reply_body` is present for `send`. -/
structure PendingData where
  email_id : List Char
  email : EmailRec
  reply_body : Option (List Char)
deriving DecidableEq

/-- The per-user session dict created by `create_session`.  Times are
UTC seconds as integers. -/
structure Session where
  user_id : List Char
  email : List Char
  name : List Char
  picture : Option (List Char)
  access_token : List Char
  refresh_token : List Char
  token_expiry : Int
  session_expiry : Int
  created_at : Int
  emails_cache : List EmailRec
  pending_action : Option (List Char)
  pending_data : Option PendingData
deriving DecidableEq

/-- `EmailSummary` model (models/chat.py). -/
structure EmailSummary where
  id : List Char
  index : Nat
  sender_name : List Char
  sender_email : List Char
  subject : List Char
  summary : List Char
  date : List Char
deriving DecidableEq

/-- `DraftReply` model. -/
structure DraftReply where
  email_id : List Char
  «to» : List Char
  subject : List Char
  body : List Char
deriving DecidableEq

/-- One formatted category group of `_handle_categorize`. -/
structure CatGroup where
  category : List Char
  count : Nat
  emails : List EmailRec
deriving DecidableEq

/-- Structured `data` payload of a `ChatResponse`. -/
inductive RespData where
  | emails (l : List EmailSummary)
  | draft (d : DraftReply)
  | categories (l : List CatGroup)
  | digestD (d : Digest)
deriving DecidableEq

/-- `ChatResponse` model: `type` ranges over text, emails, categories,
digest, draft, confirmation, error. -/
structure ChatResponse where
  message : List Char
  type : List Char
  data : Option RespData := none
  pending_action : Option (List Char) := none
deriving DecidableEq

/-- Transport side effects (gmail collaborator invocations). -/
inductive Effect where
  | fetch (count : Nat) (query : Option (List Char))
  | send («to» subject body reply_to_id : List Char)
  | delete (id : List Char)
deriving DecidableEq

/-- A typed application error (`AppError.message` is what the
`process_message` handler surfaces). -/
structure AppErr where
  message : List Char
deriving DecidableEq

/-- Collaborator outcomes for one message: at most one fetch, one
summarization, one reply generation, one grouping, one digest, one
send and one delete can occur per step, so one oracle value each. -/
structure Collab where
  fetchRes : Except AppErr (List Email)
  summarizeRes : Except Unit (List (List Char))
  genReplyRes : Except Unit (List Char)
  catRes : JsonOutcome (List Category)
  digestRes : JsonOutcome Digest
  sendRes : Except AppErr (List Char)
  delRes : Except AppErr Bool

/-- Result of one orchestrator step. -/
structure StepResult where
  resp : ChatResponse
  sess : Session
  effs : List Effect
deriving DecidableEq

def textResponse (m : List Char) : ChatResponse := { message := m, type := "text".toList }

def errResponse (m : List Char) : ChatResponse := { message := m, type := "error".toList }

/-- `format_emails_for_chat`. -/
def format_emails_for_chat (emails : List Email) (summaries : List (List Char)) :
    List EmailSummary :=
  emails.enum.map (fun p =>
    { id := p.2.id, index := p.1 + 1, sender_name := p.2.sender_name,
      sender_email := p.2.sender_email, subject := p.2.subject,
      summary := match summaries.get? p.1 with
        | some t => t
        | none => p.2.snippet.take 100,
      date := p.2.date })

/-- `_handle_read_emails`. -/
def handle_read_emails (parsed : ParsedIntent) (s : Session) (c : Collab) : StepResult :=
  let count := parsed.params.count.getD 5
  let query := parsed.params.query
  match c.fetchRes with
  | .error e => { resp := errResponse e.message, sess := s, effs := [.fetch count query] }
  | .ok emails =>
    let s1 := { s with emails_cache := cache_emails emails }
    if emails.isEmpty then
      { resp := textResponse (match query with
          | some _ => "No emails found matching your search.".toList
          | none => "Your inbox is empty! 📭".toList),
        sess := s1, effs := [.fetch count query] }
    else
      let summaries := match c.summarizeRes with
        | .ok l => l
        | .error _ => emails.map (fun e => e.snippet.take 100)
      let fmts := format_emails_for_chat emails summaries
      let intro := match query with
        | some q => "Here are the ".toList ++ natToChars emails.length ++
            " most recent emails about \x27".toList ++ q ++ "\x27:".toList
        | none => "Here are your ".toList ++ natToChars emails.length ++
            " most recent emails:".toList
      { resp := { message := intro, type := "emails".toList, data := some (.emails fmts) },
        sess := s1, effs := [.fetch count query] }

/-- `_handle_reply`.  The reply body is the rule/fallback-extracted
content when present, else the generated one; an `AIError` from
generation is caught in the handler and surfaced as an error response
without touching pending state. -/
def handle_reply (parsed : ParsedIntent) (s : Session) (c : Collab) : StepResult :=
  match parsed.params.email_ref with
  | none =>
    { resp := textResponse ("Which email would you like to reply to? You can say \x27reply to #1\x27 or \x27reply to the email from John\x27.".toList),
      sess := s, effs := [] }
  | some ref =>
    match resolve_email_reference ref s.emails_cache with
    | none =>
      { resp := textResponse ("I couldn\x27t find an email matching \x27".toList ++ ref ++
          "\x27. Try \x27show my emails\x27 first, then reference by number (e.g., \x27#1\x27).".toList),
        sess := s, effs := [] }
    | some em =>
      let contentE : Except Unit (List Char) := match parsed.params.reply_content with
        | some rc => .ok rc
        | none => c.genReplyRes
      match contentE with
      | .error _ =>
        { resp := errResponse ("Couldn\x27t generate a reply. Please provide what you\x27d like to say, e.g., \x27reply to #".toList ++
            natToChars em.index ++ ": Thanks for the update!\x27".toList),
          sess := s, effs := [] }
      | .ok content =>
        let s1 := { s with
          pending_action := some "send".toList,
          pending_data := some { email_id := em.id, email := em, reply_body := some content } }
        let draft : DraftReply := {
          email_id := em.id, «to» := em.sender_email,
          subject := "Re: ".toList ++ em.subject, body := content }
        { resp := {
            message := "Here\x27s a draft reply to ".toList ++ em.sender_name ++
              ":\n\n---\n".toList ++ content ++ "\n---\n\nSend this reply? (yes/no)".toList,
            type := "draft".toList,
            data := some (.draft draft),
            pending_action := some "send".toList },
          sess := s1, effs := [] }

/-- `_handle_delete`. -/
def handle_delete (parsed : ParsedIntent) (s : Session) : StepResult :=
  match parsed.params.email_ref with
  | none =>
    { resp := textResponse ("Which email would you like to delete? You can say \x27delete #1\x27 or \x27delete the email from LinkedIn\x27.".toList),
      sess := s, effs := [] }
  | some ref =>
    match resolve_email_reference ref s.emails_cache with
    | none =>
      { resp := textResponse ("I couldn\x27t find an email matching \x27".toList ++ ref ++
          "\x27. Try \x27show my emails\x27 first.".toList),
        sess := s, effs := [] }
    | some em =>
      let s1 := { s with
        pending_action := some "delete".toList,
        pending_data := some { email_id := em.id, email := em, reply_body := none } }
      { resp := {
          message := "Delete this email?\n\n**From:** ".toList ++ em.sender_name ++
            " <".toList ++ em.sender_email ++ ">\n**Subject:** ".toList ++ em.subject ++
            "\n\n⚠️ Reply \x27yes\x27 to delete or \x27no\x27 to cancel.".toList,
          type := "confirmation".toList,
          pending_action := some "delete".toList },
        sess := s1, effs := [] }

/-- Python list indexing `cache[i-1]` under the guard `i <= len(cache)`
of `_handle_categorize`; `i = 0` reads `cache[-1]`, the last element. -/
def pyIndex (cache : List EmailRec) (i : Nat) : Option EmailRec :=
  if i = 0 then cache.getLast? else cache.get? (i - 1)

/-- The part of `_handle_categorize` after the optional refill fetch. -/
def categorizeBody (s : Session) (c : Collab) (effs : List Effect) : StepResult :=
  let cache := s.emails_cache
  if cache.isEmpty then
    { resp := textResponse "No emails found to organize.".toList, sess := s, effs := effs }
  else
    let categories := categorize_emails cache c.catRes
    let formatted := categories.map (fun cat => {
      category := cat.name,
      count := cat.email_indices.length,
      emails := (cat.email_indices.filter (· ≤ cache.length)).filterMap (pyIndex cache) })
    { resp := {
        message := "I\x27ve organized your emails into ".toList ++
          natToChars categories.length ++ " categories:".toList,
        type := "categories".toList,
        data := some (.categories formatted) },
      sess := s, effs := effs }

/-- `_handle_categorize`: refetch 20 when the cache holds fewer than 10
entries, then group. -/
def handle_categorize (s : Session) (c : Collab) : StepResult :=
  let cache0 := s.emails_cache
  if cache0.isEmpty || cache0.length < 10 then
    match c.fetchRes with
    | .error e => { resp := errResponse e.message, sess := s, effs := [.fetch 20 none] }
    | .ok emails =>
      categorizeBody { s with emails_cache := cache_emails emails } c [.fetch 20 none]
  else categorizeBody s c []

/-- The part of `_handle_digest` after the optional fetch. -/
def digestBody (s : Session) (c : Collab) (effs : List Effect) : StepResult :=
  match generate_digest s.emails_cache c.digestRes with
  | .ok d =>
    let r : ChatResponse := {
      message := "📋 **Daily Digest**\n\n".toList ++ d.summary,
      type := "digest".toList, data := some (.digestD d) }
    { resp := r, sess := s, effs := effs }
  | .error _ =>
    { resp := errResponse "Something went wrong. Please try again.".toList,
      sess := s, effs := effs }

/-- `_handle_digest`: fetch 5 when the cache is empty, then digest. -/
def handle_digest (s : Session) (c : Collab) : StepResult :=
  if s.emails_cache.isEmpty then
    match c.fetchRes with
    | .error e => { resp := errResponse e.message, sess := s, effs := [.fetch 5 none] }
    | .ok emails =>
      let s1 := { s with emails_cache := cache_emails emails }
      if emails.isEmpty then
        { resp := textResponse "No emails to summarize today. Your inbox is empty! 🎉".toList,
          sess := s1, effs := [.fetch 5 none] }
      else digestBody s1 c [.fetch 5 none]
  else digestBody s c []

/-- `_handle_confirm`: with nothing (fully) pending, an informational
text; otherwise clear both pending fields, then execute the stored
payload via the relevant collaborator. -/
def handle_confirm (s : Session) (c : Collab) : StepResult :=
  match s.pending_action, s.pending_data with
  | some pa, some pd =>
    let s1 := { s with pending_action := none, pending_data := none }
    if pa = "send".toList then
      match pd.reply_body with
      | none =>
        { resp := errResponse "Something went wrong. Please try again.".toList,
          sess := s1, effs := [] }
      | some body =>
        let eff := Effect.send pd.email.sender_email ("Re: ".toList ++ pd.email.subject)
          body pd.email_id
        match c.sendRes with
        | .ok _ =>
          { resp := textResponse ("✅ Reply sent to ".toList ++ pd.email.sender_name ++
              "!".toList),
            sess := s1, effs := [eff] }
        | .error e => { resp := errResponse e.message, sess := s1, effs := [eff] }
    else if pa = "delete".toList then
      match c.delRes with
      | .ok _ =>
        let s2 := { s1 with
          emails_cache := s1.emails_cache.filter (fun e => e.id ≠ pd.email_id) }
        { resp := textResponse ("🗑️ Email from ".toList ++ pd.email.sender_name ++
            " deleted.".toList),
          sess := s2, effs := [.delete pd.email_id] }
      | .error e => { resp := errResponse e.message, sess := s1, effs := [.delete pd.email_id] }
    else
      { resp := errResponse "Unknown pending action.".toList, sess := s1, effs := [] }
  | _, _ =>
    { resp := textResponse "No pending action to confirm. What would you like to do?".toList,
      sess := s, effs := [] }

/-- `_handle_cancel`: clears both pending fields unconditionally. -/
def handle_cancel (s : Session) : StepResult :=
  let pa := s.pending_action
  let s1 := { s with pending_action := none, pending_data := none }
  match pa with
  | some p =>
    let actionName := if p = "send".toList then "Reply".toList else "Delete".toList
    { resp := textResponse ("❌ ".toList ++ actionName ++
        " cancelled. What else can I help with?".toList),
      sess := s1, effs := [] }
  | none =>
    { resp := textResponse "Nothing to cancel. What would you like to do?".toList,
      sess := s1, effs := [] }

/-- `get_low_confidence_message` (the dict lookup with UNKNOWN as the
default). -/
def get_low_confidence_message (intent : Intent) : List Char :=
  match intent with
  | .READ_EMAILS => "Did you want to see your emails?".toList
  | .REPLY => "Would you like to reply to an email? If so, which one?".toList
  | .DELETE => "Did you want to delete an email? Please specify which one.".toList
  | .CATEGORIZE => "Would you like me to organize your emails by category?".toList
  | .DIGEST => "Would you like a summary of today\x27s emails?".toList
  | _ => "I\x27m not sure what you\x27d like to do. Try:\n• \x27Show my emails\x27\n• \x27Reply to #1\x27\n• \x27Delete email from John\x27\n• \x27Organize my inbox\x27".toList

/-- `_handle_help` (the full help text is irrelevant to the claims and
abbreviated to its first line). -/
def handle_help (s : Session) : StepResult :=
  { resp := textResponse "Here\x27s what I can do:".toList, sess := s, effs := [] }

/-- `_handle_greeting`. -/
def handle_greeting (s : Session) : StepResult :=
  { resp := textResponse "Hello! 👋 I\x27m your email assistant. I can help you read, reply to, and manage your emails. Type \x27show my emails\x27 to get started, or \x27help\x27 to see all commands.".toList,
    sess := s, effs := [] }

/-- `_handle_unknown`. -/
def handle_unknown (s : Session) : StepResult :=
  { resp := textResponse (get_low_confidence_message .UNKNOWN), sess := s, effs := [] }

/-- `_handle_intent`: the dispatch table. -/
def handle_intent (parsed : ParsedIntent) (s : Session) (c : Collab) : StepResult :=
  match parsed.intent with
  | .READ_EMAILS => handle_read_emails parsed s c
  | .REPLY => handle_reply parsed s c
  | .DELETE => handle_delete parsed s
  | .CATEGORIZE => handle_categorize s c
  | .DIGEST => handle_digest s c
  | .CONFIRM => handle_confirm s c
  | .CANCEL => handle_cancel s
  | .HELP => handle_help s
  | .GREETING => handle_greeting s
  | .UNKNOWN => handle_unknown s

/-- `process_message` after the parse step: the low-confidence guard
followed by dispatch. -/
def process_parsed (parsed : ParsedIntent) (s : Session) (c : Collab) : StepResult :=
  if parsed.confidence < CONFIDENCE_THRESHOLD_LOW ∧ parsed.intent = .UNKNOWN then
    { resp := textResponse (get_low_confidence_message parsed.intent), sess := s, effs := [] }
  else handle_intent parsed s c

/-- Full `process_message`: parse (with the pending flag read from the
session), then guard and dispatch. -/
def process_message (message : String) (s : Session) (ai : Except Unit AIParsed)
    (c : Collab) : StepResult :=
  process_parsed (parse_message message s.pending_action.isSome ai).1 s c

/-! ### session_service.py

Times are UTC seconds as integers.  A JWT is modelled as its decoded
payload plus a signature-validity bit; `jwt.decode` verifies the
signature and, unless disabled, the `exp` claim (PyJWT raises
`ExpiredSignatureError` once `exp` is past `now`; every claim below
exercises only instants strictly past expiry, where any boundary
convention of the library agrees). -/

/-- A session JWT: payload `{session_id, exp, iat}` plus whether the
signature verifies under the configured secret. -/
structure JwtToken where
  session_id : List Char
  exp : Int
  iat : Int
  sigValid : Bool
deriving DecidableEq

/-- The process-wide `_sessions` dict as an insertion-ordered
association list. -/
abbrev Store := List (List Char × Session)

def storeFind (store : Store) (sid : List Char) : Option Session :=
  match store with
  | [] => none
  | p :: rest => if p.1 == sid then some p.2 else storeFind rest sid

def storeHas (store : Store) (sid : List Char) : Bool :=
  match store with
  | [] => false
  | p :: rest => p.1 == sid || storeHas rest sid

def storeErase (store : Store) (sid : List Char) : Store :=
  match store with
  | [] => []
  | p :: rest => if p.1 == sid then storeErase rest sid else p :: storeErase rest sid

def storeSetGo (store : Store) (sid : List Char) (v : Session) : Store :=
  match store with
  | [] => []
  | p :: rest =>
    if p.1 == sid then (p.1, v) :: storeSetGo rest sid v
    else p :: storeSetGo rest sid v

/-- Python dict assignment: replace in place, else append. -/
def storeSet (store : Store) (sid : List Char) (v : Session) : Store :=
  if storeHas store sid then storeSetGo store sid v else store ++ [(sid, v)]

/-- `jwt.decode`: `none` on a bad signature or (when `verifyExp`) an
expired `exp` claim, else the embedded session id. -/
def jwtDecode (tok : JwtToken) (verifyExp : Bool) (now : Int) : Option (List Char) :=
  if !tok.sigValid then none
  else if verifyExp && decide (tok.exp ≤ now) then none
  else some tok.session_id

/-- `create_session`: stores the fresh session dict server-side and
returns a signed JWT whose `exp` claim is the session expiry itself. -/
def create_session (user_id email name : List Char) (picture : Option (List Char))
    (access_token refresh_token : List Char) (expires_in : Int)
    (session_expire_hours : Int) (now : Int) (store : Store) : JwtToken × Store :=
  let session_id := user_id ++ '_' :: natToChars now.toNat
  let session_expiry := now + 3600 * session_expire_hours
  let sess : Session := {
    user_id := user_id, email := email, name := name, picture := picture,
    access_token := access_token, refresh_token := refresh_token,
    token_expiry := now + expires_in, session_expiry := session_expiry,
    created_at := now, emails_cache := [], pending_action := none,
    pending_data := none }
  ({ session_id := session_id, exp := session_expiry, iat := now, sigValid := true },
   storeSet store session_id sess)

/-- `delete_session` (decodes with `verify_exp` disabled, so expired
sessions can be deleted explicitly). -/
def delete_session (tok : JwtToken) (store : Store) (now : Int) : Bool × Store :=
  match jwtDecode tok false now with
  | none => (false, store)
  | some sid =>
    if storeHas store sid then (true, storeErase store sid)
    else (false, store)

/-- `get_session`: decode (with exp verification), look up the store,
then the in-store expiry check that deletes and hides an expired
session. -/
def get_session (tok : JwtToken) (store : Store) (now : Int) :
    Option Session × Store :=
  match jwtDecode tok true now with
  | none => (none, store)
  | some sid =>
    match storeFind store sid with
    | none => (none, store)
    | some sess =>
      if now > sess.session_expiry then (none, (delete_session tok store now).2)
      else (some sess, store)

/-- `update_tokens` = `update_session(token, {access_token,
token_expiry})`; `update_session` decodes with default (exp-verifying)
settings. -/
def update_tokens (tok : JwtToken) (access_token : List Char) (expires_in : Int)
    (now : Int) (store : Store) : Bool × Store :=
  match jwtDecode tok true now with
  | none => (false, store)
  | some sid =>
    match storeFind store sid with
    | none => (false, store)
    | some sess =>
      (true, storeSet store sid
        { sess with access_token := access_token, token_expiry := now + expires_in })

/-- `is_token_expired`: a 5-minute refresh buffer. -/
def is_token_expired (sess : Session) (now : Int) : Bool :=
  now + 300 > sess.token_expiry

/-- The `code` field of the 401 details raised by
`get_current_session`. -/
inductive AuthFailCode where
  | AUTH_REQUIRED | SESSION_EXPIRED | PERMISSION_REVOKED | TOKEN_REFRESH_FAILED
deriving DecidableEq

/-- Outcome of the `refresh_access_token` collaborator: a new token, a
`PermissionRevokedError`, or any other failure. -/
inductive RefreshOutcome where
  | ok (new_access_token : List Char) (expires_in : Int)
  | revoked
  | failed
deriving DecidableEq

/-- `get_current_session`: cookie → session lookup → token-freshness
check with refresh.  On revoked consent the session is deleted and a
PERMISSION_REVOKED 401 raised; on any other refresh failure a
TOKEN_REFRESH_FAILED 401 is raised with the store untouched.  The
session returned on the success path reflects the in-place update of
the stored dict. -/
def get_current_session (cookie : Option JwtToken) (store : Store) (now : Int)
    (refresh : RefreshOutcome) : Except AuthFailCode Session × Store :=
  match cookie with
  | none => (.error .AUTH_REQUIRED, store)
  | some tok =>
    match get_session tok store now with
    | (none, store1) => (.error .SESSION_EXPIRED, store1)
    | (some sess, store1) =>
      if is_token_expired sess now then
        match refresh with
        | .ok newTok expiresIn =>
          let store2 := (update_tokens tok newTok expiresIn now store1).2
          let sess2 := { sess with access_token := newTok, token_expiry := now + expiresIn }
          (.ok sess2, store2)
        | .revoked => (.error .PERMISSION_REVOKED, (delete_session tok store1 now).2)
        | .failed => (.error .TOKEN_REFRESH_FAILED, store1)
      else (.ok sess, store1)

/-! ### Concrete fixtures for witnesses and counterexamples -/

def em1 : EmailRec := {
  index := 1, id := "id1".toList, sender_name := "Alice".toList,
  sender_email := "alice@example.com".toList, subject := "Hello".toList,
  body := "body one".toList, snippet := "snippet one".toList, date := "d1".toList }

def em2 : EmailRec := {
  index := 2, id := "id2".toList, sender_name := "Bob".toList,
  sender_email := "bob@example.com".toList, subject := "Invoice".toList,
  body := "body two".toList, snippet := "snippet two".toList, date := "d2".toList }

def fe1 : Email := {
  id := "f1".toList, sender_name := "Carol".toList,
  sender_email := "carol@example.com".toList, subject := "S1".toList,
  body := "B1".toList, snippet := "Sn1".toList, date := "D1".toList }

def fe2 : Email := {
  id := "f2".toList, sender_name := "Dan".toList,
  sender_email := "dan@example.com".toList, subject := "S2".toList,
  body := "B2".toList, snippet := "Sn2".toList, date := "D2".toList }

def fe3 : Email := {
  id := "f3".toList, sender_name := "Eve".toList,
  sender_email := "eve@example.com".toList, subject := "S3".toList,
  body := "B3".toList, snippet := "Sn3".toList, date := "D3".toList }

def sessIdle : Session := {
  user_id := "u1".toList, email := "u1@example.com".toList,
  name := "U One".toList, picture := none, access_token := "at".toList,
  refresh_token := "rt".toList, token_expiry := 400, session_expiry := 500,
  created_at := 0, emails_cache := [em1, em2], pending_action := none,
  pending_data := none }

def tok0 : JwtToken := {
  session_id := "sid0".toList, exp := 500, iat := 0,
  sigValid := true }

/-- The JWT `create_session` mints for a stored session: the `exp`
claim is the session expiry itself. -/
def mkTok (sid : List Char) (sess : Session) : JwtToken :=
  { session_id := sid, exp := sess.session_expiry, iat := sess.created_at,
    sigValid := true }

def pd1 : PendingData := {
  email_id := em1.id, email := em1, reply_body := some "hello".toList }

def sessPending : Session := { sessIdle with
  pending_action := some "send".toList,
  pending_data := some pd1 }

def collab0 : Collab := {
  fetchRes := .ok [fe1, fe2, fe3],
  summarizeRes := .error (),
  genReplyRes := .error (),
  catRes := .aiFail,
  digestRes := .aiFail,
  sendRes := .ok "mid1".toList,
  delRes := .ok true }

/-- 0.5 as a reduced fraction. -/
def halfConf : Rat := ⟨1, 2, by decide, by decide⟩

def aiSample : AIParsed := {
  intent_str := "DIGEST".toList, confidence := halfConf,
  params := {} }

def pReply1 : ParsedIntent := {
  intent := .REPLY, confidence := RULE_CONFIDENCE,
  params := { email_ref := some "1".toList, reply_content := some "Thanks!".toList },
  requires_confirmation := true }

def pConfirm : ParsedIntent := {
  intent := .CONFIRM, confidence := RULE_CONFIDENCE,
  params := {} }

def pCancel : ParsedIntent := {
  intent := .CANCEL, confidence := RULE_CONFIDENCE,
  params := {} }

def pRead : ParsedIntent := {
  intent := .READ_EMAILS, confidence := RULE_CONFIDENCE,
  params := {} }

/-- The pending-fields invariant of a session: `pending_action` and
`pending_data` are both set or both none. -/
def pendingConsistent (s : Session) : Prop :=
  (s.pending_action = none ∧ s.pending_data = none) ∨
  (s.pending_action ≠ none ∧ s.pending_data ≠ none)

/-! ### Helper lemmas -/

/-- Every rule match carries confidence 0.9. -/
theorem ruleConfidenceEq (msg : String) (r : ParsedIntent)
    (h : rule_based_parse msg = some r) : r.confidence = RULE_CONFIDENCE := by
  rw [rule_based_parse] at h
  split at h
  · exact absurd h (by simp)
  · simp only [Option.some.injEq] at h
    subst h
    rfl

/-- Whenever the rule table matches, `parse_message` returns that
result without consulting the fallback, for either pending flag: the
priority path and the high-confidence path both short-circuit, and 0.9
meets the 0.85 threshold. -/
theorem parse_message_rule_hit (msg : String) (pending : Bool)
    (ai : Except Unit AIParsed) (r : ParsedIntent)
    (hr : rule_based_parse msg = some r) :
    parse_message msg pending ai = (r, false) := by
  have hc := ruleConfidenceEq msg r hr
  have hhigh : CONFIDENCE_THRESHOLD_HIGH ≤ r.confidence := by rw [hc]; decide
  simp only [parse_message, hr]
  cases pending with
  | false => simp [hhigh]
  | true =>
    by_cases hi : (r.intent = Intent.CONFIRM || r.intent = Intent.CANCEL : Bool) = true
    · simp [hi]
    · simp [hi, hhigh]


/-! ### Claim theorems -/

/-- C6 counterexample: the claim says the literal text "to #1" is never
captured as reply content for any message, but a message that places it
after a colon gets it back through the colon fallback. -/
theorem C6_counterexample :
    extract_reply_content "note: to #1".toList = some "to #1".toList := by decide

/-- C6 (amended): the ordered reply-content patterns are tried first;
the two regression inputs behave as documented ("reply to #1" yields
nothing, "reply to #1: I agree" yields "I agree"); and when no pattern
matches but the message contains a colon, the stripped text after the
first colon is returned exactly when its length exceeds 2 — which is
also the only way the literal text "to #1" can be captured. -/
theorem C6_amended :
    extract_reply_content "reply to #1".toList = none ∧
    extract_reply_content "reply to #1: I agree".toList = some "I agree".toList ∧
    (∀ msg tail : List Char, firstCapture REPLY_CONTENT_PATTERNS msg = none →
      afterFirstColon msg = some tail →
      extract_reply_content msg =
        (if 2 < (stripL tail).length then some (stripL tail) else none)) := by
  refine ⟨by decide, by decide, ?_⟩
  intro msg tail h1 h2
  simp [extract_reply_content, h1, h2]

/-- Witness for the amended C6 at a concrete input. -/
theorem C6_amended_witness :
    extract_reply_content "x: abc".toList =
      (if 2 < (stripL " abc".toList).length then some (stripL " abc".toList) else none) :=
  C6_amended.2.2 "x: abc".toList " abc".toList (by decide) (by decide)

/-- C7 counterexample: the numeric index patterns run before the
ordinal words (the claim says the opposite), so "first email 2"
extracts "2"; and the 1st…5th forms the claim lists are not recognized
by this pass at all. -/
theorem C7_counterexample :
    extract_email_reference "first email 2".toList = some "2".toList ∧
    extract_email_reference "reply to the 2nd email".toList = none := by
  exact ⟨by decide, by decide⟩

/-- C7 (amended): in `extract_email_reference` the numeric patterns
`#N`, `email N`, `number N`, bare `N` are tried before the ordinal-word
pattern (first…fifth, last), so a message containing both yields the
numeric reference, while ordinal words still resolve alone. -/
theorem C7_amended :
    extract_email_reference "#3 first".toList = some "3".toList ∧
    extract_email_reference "last email 2".toList = some "2".toList ∧
    extract_email_reference "delete the first one".toList = some "first".toList := by
  exact ⟨by decide, by decide, by decide⟩

/-- C3 counterexample: "dont delete it" matches a CANCEL pattern, yet
with a pending action it is classified DELETE, because the priority
path runs the full rule table (DELETE is listed earlier) instead of
checking only the CONFIRM/CANCEL groups. -/
theorem C3_counterexample :
    CANCEL_PATTERNS.any (fun p => reTest p (stripL (lowerL "dont delete it".toList))) = true ∧
    (parse_message "dont delete it" true (.error ())).1.intent = Intent.DELETE := by
  exact ⟨by decide, by decide⟩

/-- C3 (amended): when `has_pending_action` is true, `parse_message`
runs the full ordered rule table and short-circuits with its result
exactly when the winning (earliest-listed) intent is CONFIRM or CANCEL;
"yes" is still classified CONFIRM, but a message that also matches an
earlier-listed intent (e.g. "delete it confirmed") is classified as
that earlier intent. -/
theorem C3_amended :
    (∀ (msg : String) (r : ParsedIntent) (ai : Except Unit AIParsed),
      rule_based_parse msg = some r →
      (r.intent = Intent.CONFIRM ∨ r.intent = Intent.CANCEL) →
      parse_message msg true ai = (r, false)) ∧
    (∀ ai : Except Unit AIParsed, (parse_message "yes" true ai).1.intent = Intent.CONFIRM) ∧
    (∀ ai : Except Unit AIParsed,
      (parse_message "delete it confirmed" true ai).1.intent = Intent.DELETE) := by
  refine ⟨fun msg r ai hr _ => parse_message_rule_hit msg true ai r hr,
    fun ai => ?_, fun ai => ?_⟩
  · rw [parse_message_rule_hit "yes" true ai
      { intent := .CONFIRM, confidence := RULE_CONFIDENCE, params := {},
        requires_confirmation := false } (by decide)]
  · rw [parse_message_rule_hit "delete it confirmed" true ai
      { intent := .DELETE, confidence := RULE_CONFIDENCE, params := {},
        requires_confirmation := true } (by decide)]

/-- Witness for the amended C3 at a concrete input. -/
theorem C3_amended_witness :
    parse_message "no" true (.error ()) =
      ({ intent := .CANCEL, confidence := RULE_CONFIDENCE, params := {},
         requires_confirmation := false }, false) :=
  C3_amended.1 "no" _ (.error ()) (by decide) (Or.inr rfl)

/-- C10: the generative fallback runs only when no deterministic rule
matched at all (every rule match returns immediately with confidence
0.9 ≥ 0.85), so the documented params merge never sees rule-extracted
params and the fallback's params are returned as-is. -/
theorem C10_fallback_only_without_rule_match (msg : String) (pending : Bool)
    (ai : Except Unit AIParsed)
    (h : (parse_message msg pending ai).2 = true) :
    rule_based_parse msg = none ∧
      ∀ a : AIParsed, ai = .ok a → (parse_message msg pending ai).1.params = a.params := by
  cases hr : rule_based_parse msg with
  | some r =>
    rw [parse_message_rule_hit msg pending ai r hr] at h
    exact absurd h (by simp)
  | none =>
    refine ⟨rfl, fun a ha => ?_⟩
    subst ha
    simp [parse_message, hr, aiBranch]

/-- Witness for C10 at a concrete input where the fallback fires. -/
theorem C10_witness :
    rule_based_parse "zzz" = none ∧
      ∀ a : AIParsed, (Except.ok aiSample : Except Unit AIParsed) = .ok a →
        (parse_message "zzz" false (.ok aiSample)).1.params = a.params :=
  C10_fallback_only_without_rule_match "zzz" false (.ok aiSample) (by decide)

/-- Looking up a key just erased from the store fails. -/
theorem storeFind_erase (store : Store) (sid : List Char) :
    storeFind (storeErase store sid) sid = none := by
  induction store with
  | nil => rfl
  | cons p rest ih =>
    by_cases h : (p.1 == sid) = true
    · simpa [storeErase, h] using ih
    · simpa [storeErase, storeFind, h] using ih

/-- A successful lookup means the key is present. -/
theorem storeFind_any (store : Store) (sid : List Char) (sess : Session)
    (h : storeFind store sid = some sess) : storeHas store sid = true := by
  induction store with
  | nil => simp [storeFind] at h
  | cons p rest ih =>
    by_cases hp : (p.1 == sid) = true
    · simp [storeHas, hp]
    · simp only [storeFind, hp, if_neg, Bool.false_eq_true, not_false_eq_true,
        if_false] at h
      simp [storeHas, hp, ih h]

/-- C4 (code bug): once the current time is strictly past
`session_expiry`, `get_session` returns none but leaves the record in
the store: the JWT minted by `create_session` carries
`exp = session_expiry`, so `jwt.decode` raises `ExpiredSignatureError`
before the in-store expiry check, and the delete branch of
`get_session` is unreachable for such tokens. -/
theorem C4_expired_session_not_deleted (sid : List Char) (sess : Session) (now : Int)
    (h : now > sess.session_expiry) :
    get_session (mkTok sid sess) [(sid, sess)] now = (none, [(sid, sess)]) ∧
    storeFind [(sid, sess)] sid = some sess := by
  have hd : (decide (sess.session_expiry ≤ now)) = true := by
    simp
    omega
  constructor
  · simp [get_session, jwtDecode, mkTok, hd]
  · simp [storeFind]

/-- Witness for C4 at a concrete expired session. -/
theorem C4_witness :
    get_session (mkTok "sid0".toList sessIdle) [("sid0".toList, sessIdle)] 1000 =
      (none, [("sid0".toList, sessIdle)]) ∧
    storeFind [("sid0".toList, sessIdle)] "sid0".toList = some sessIdle :=
  C4_expired_session_not_deleted "sid0".toList sessIdle 1000 (by decide)

/-- C5: on the current-session path, when the access token needs
refresh, a revoked-consent failure deletes the session and surfaces
PERMISSION_REVOKED, while any other refresh failure surfaces
TOKEN_REFRESH_FAILED and leaves the store (and the session in it)
untouched. -/
theorem C5_refresh_failure_dichotomy (store : Store) (sid : List Char) (sess : Session)
    (now : Int)
    (hfind : storeFind store sid = some sess)
    (hfresh : now < sess.session_expiry)
    (hneed : now + 300 > sess.token_expiry) :
    (get_current_session (some (mkTok sid sess)) store now .revoked =
      (.error .PERMISSION_REVOKED, storeErase store sid) ∧
     storeFind (storeErase store sid) sid = none) ∧
    get_current_session (some (mkTok sid sess)) store now .failed =
      (.error .TOKEN_REFRESH_FAILED, store) := by
  have hdec : (decide (sess.session_expiry ≤ now)) = false := by
    simp
    omega
  have hnotexp : ¬ (now > sess.session_expiry) := by omega
  have hget : get_session (mkTok sid sess) store now = (some sess, store) := by
    simp [get_session, jwtDecode, mkTok, hdec, hfind, hnotexp]
  have hexp : is_token_expired sess now = true := by
    simp [is_token_expired]
    omega
  have hany := storeFind_any store sid sess hfind
  refine ⟨⟨?_, storeFind_erase store sid⟩, ?_⟩
  · simp only [get_current_session, hget, hexp, if_true]
    simp [delete_session, jwtDecode, mkTok, hany]
  · simp only [get_current_session, hget, hexp, if_true]

/-- Witness for C5 at a concrete session needing refresh. -/
theorem C5_witness :
    (get_current_session (some (mkTok "sid0".toList sessIdle))
        [("sid0".toList, sessIdle)] 300 .revoked =
      (.error .PERMISSION_REVOKED, storeErase [("sid0".toList, sessIdle)] "sid0".toList) ∧
     storeFind (storeErase [("sid0".toList, sessIdle)] "sid0".toList) "sid0".toList = none) ∧
    get_current_session (some (mkTok "sid0".toList sessIdle))
        [("sid0".toList, sessIdle)] 300 .failed =
      (.error .TOKEN_REFRESH_FAILED, [("sid0".toList, sessIdle)]) :=
  C5_refresh_failure_dichotomy [("sid0".toList, sessIdle)] "sid0".toList sessIdle 300
    (by decide) (by decide) (by decide)

/-- C8 (code bug): with a 2-entry cache, CATEGORIZE performs exactly
one fetch of 20 before grouping; but when the grouping AI call fails
with AIError the response is a categories response with zero groups
(the default from parse_json_response), not the claimed single
catch-all group of all cached indices. -/
theorem C8_zero_groups_on_ai_failure :
    (handle_categorize sessIdle collab0).effs = [Effect.fetch 20 none] ∧
    (handle_categorize sessIdle collab0).resp.type = "categories".toList ∧
    (handle_categorize sessIdle collab0).resp.data = some (.categories []) := by
  exact ⟨by decide, by decide, by decide⟩

/-- `_handle_read_emails` never touches the pending fields. -/
theorem read_emails_frame (p : ParsedIntent) (s : Session) (c : Collab) :
    (handle_read_emails p s c).sess.pending_action = s.pending_action ∧
    (handle_read_emails p s c).sess.pending_data = s.pending_data := by
  cases hf : c.fetchRes with
  | error e => simp [handle_read_emails, hf]
  | ok emails =>
    by_cases he : emails.isEmpty <;> simp [handle_read_emails, hf, he]

/-- `categorizeBody` returns the session unchanged. -/
theorem categorizeBody_sess (s : Session) (c : Collab) (effs : List Effect) :
    (categorizeBody s c effs).sess = s := by
  simp only [categorizeBody]
  split <;> rfl

/-- `_handle_categorize` never touches the pending fields. -/
theorem categorize_frame (s : Session) (c : Collab) :
    (handle_categorize s c).sess.pending_action = s.pending_action ∧
    (handle_categorize s c).sess.pending_data = s.pending_data := by
  simp only [handle_categorize]
  split
  · cases hf : c.fetchRes with
    | error e => simp [hf]
    | ok emails =>
      simp only [hf]
      rw [categorizeBody_sess]
      simp
  · rw [categorizeBody_sess]
    exact ⟨rfl, rfl⟩

/-- `digestBody` returns the session unchanged. -/
theorem digestBody_sess (s : Session) (c : Collab) (effs : List Effect) :
    (digestBody s c effs).sess = s := by
  simp only [digestBody]
  split <;> rfl

/-- `_handle_digest` never touches the pending fields. -/
theorem digest_frame (s : Session) (c : Collab) :
    (handle_digest s c).sess.pending_action = s.pending_action ∧
    (handle_digest s c).sess.pending_data = s.pending_data := by
  simp only [handle_digest]
  split
  · cases hf : c.fetchRes with
    | error e => simp [hf]
    | ok emails =>
      simp only [hf]
      split
      · simp
      · rw [digestBody_sess]
        simp
  · rw [digestBody_sess]
    exact ⟨rfl, rfl⟩

/-- `_handle_reply` preserves the pending-fields invariant: it either
leaves the fields alone or sets both. -/
theorem reply_pending (p : ParsedIntent) (s : Session) (c : Collab)
    (h : pendingConsistent s) : pendingConsistent (handle_reply p s c).sess := by
  simp only [handle_reply]
  split
  · exact h
  · split
    · exact h
    · split
      · exact h
      · exact Or.inr ⟨by simp, by simp⟩

/-- `_handle_delete` preserves the pending-fields invariant. -/
theorem delete_pending (p : ParsedIntent) (s : Session)
    (h : pendingConsistent s) : pendingConsistent (handle_delete p s).sess := by
  simp only [handle_delete]
  split
  · exact h
  · split
    · exact h
    · exact Or.inr ⟨by simp, by simp⟩

/-- `_handle_confirm` preserves the pending-fields invariant: with both
fields set it clears both on every branch, and otherwise it leaves the
session untouched. -/
theorem confirm_pending (s : Session) (c : Collab)
    (h : pendingConsistent s) : pendingConsistent (handle_confirm s c).sess := by
  rcases hpa : s.pending_action with _ | pa
  · rcases hpd : s.pending_data with _ | pd <;>
      simp only [handle_confirm, hpa, hpd] <;> exact h
  · rcases hpd : s.pending_data with _ | pd
    · simp only [handle_confirm, hpa, hpd]
      exact h
    · simp only [handle_confirm, hpa, hpd]
      split
      · split
        · exact Or.inl ⟨rfl, rfl⟩
        · split
          · exact Or.inl ⟨rfl, rfl⟩
          · exact Or.inl ⟨rfl, rfl⟩
      · split
        · split
          · exact Or.inl ⟨by simp, by simp⟩
          · exact Or.inl ⟨rfl, rfl⟩
        · exact Or.inl ⟨rfl, rfl⟩

/-- `_handle_cancel` clears both pending fields. -/
theorem cancel_clears (s : Session) :
    (handle_cancel s).sess.pending_action = none ∧
    (handle_cancel s).sess.pending_data = none := by
  rcases hpa : s.pending_action with _ | pa <;> simp [handle_cancel, hpa]

/-- C2: after any single message step (any intent, any collaborator
outcome, including clarification, cancel and failure paths),
`pending_action` and `pending_data` are still both set or both none —
no handler sets or clears one of the two without the other. -/
theorem C2_pending_fields_invariant (p : ParsedIntent) (s : Session) (c : Collab)
    (h : pendingConsistent s) : pendingConsistent (process_parsed p s c).sess := by
  have frame : ∀ s' : Session, s'.pending_action = s.pending_action →
      s'.pending_data = s.pending_data → pendingConsistent s' := by
    intro s' h1 h2
    unfold pendingConsistent at *
    rw [h1, h2]
    exact h
  unfold process_parsed
  split
  · exact h
  · unfold handle_intent
    split
    · exact frame _ (read_emails_frame p s c).1 (read_emails_frame p s c).2
    · exact reply_pending p s c h
    · exact delete_pending p s h
    · exact frame _ (categorize_frame s c).1 (categorize_frame s c).2
    · exact frame _ (digest_frame s c).1 (digest_frame s c).2
    · exact confirm_pending s c h
    · exact Or.inl ⟨(cancel_clears s).1, (cancel_clears s).2⟩
    · exact h
    · exact h
    · exact h

/-- Witness for C2 at a concrete step. -/
theorem C2_witness : pendingConsistent (process_parsed pRead sessIdle collab0).sess :=
  C2_pending_fields_invariant pRead sessIdle collab0 (Or.inl ⟨rfl, rfl⟩)

/-- C9: while a confirmation is pending, READ_EMAILS, CATEGORIZE,
DIGEST, HELP, GREETING and UNKNOWN are dispatched through their own
handlers (the low-confidence guard can only intercept UNKNOWN, where it
returns the identical response without touching the session), and the
pending fields are unchanged afterwards. -/
theorem C9_pending_not_a_lock (p : ParsedIntent) (s : Session) (c : Collab)
    (hpend : s.pending_action ≠ none)
    (hi : p.intent = .READ_EMAILS ∨ p.intent = .CATEGORIZE ∨ p.intent = .DIGEST ∨
      p.intent = .HELP ∨ p.intent = .GREETING ∨ p.intent = .UNKNOWN) :
    process_parsed p s c = handle_intent p s c ∧
    (process_parsed p s c).sess.pending_action = s.pending_action ∧
    (process_parsed p s c).sess.pending_data = s.pending_data := by
  have hdisp : process_parsed p s c = handle_intent p s c := by
    unfold process_parsed
    split
    · rename_i hg
      simp [handle_intent, hg.2, handle_unknown]
    · rfl
  have hframe : (handle_intent p s c).sess.pending_action = s.pending_action ∧
      (handle_intent p s c).sess.pending_data = s.pending_data := by
    rcases hi with h1 | h1 | h1 | h1 | h1 | h1 <;> simp only [handle_intent, h1]
    · exact read_emails_frame p s c
    · exact categorize_frame s c
    · exact digest_frame s c
    · exact ⟨rfl, rfl⟩
    · exact ⟨rfl, rfl⟩
    · exact ⟨rfl, rfl⟩
  exact ⟨hdisp, by rw [hdisp]; exact hframe.1, by rw [hdisp]; exact hframe.2⟩

/-- Witness for C9 at a concrete pending session. -/
theorem C9_witness :
    process_parsed pRead sessPending collab0 = handle_intent pRead sessPending collab0 ∧
    (process_parsed pRead sessPending collab0).sess.pending_action =
      sessPending.pending_action ∧
    (process_parsed pRead sessPending collab0).sess.pending_data =
      sessPending.pending_data :=
  C9_pending_not_a_lock pRead sessPending collab0 (by decide) (Or.inl rfl)

/-- C1: from Idle, a REPLY intent whose reference resolves (with the
reply body already extracted) stores the send payload and both pending
fields and answers with a draft; a CONFIRM then invokes the send
collaborator exactly once with exactly the stored payload, clears both
pending fields in the same step, and answers with a success text; a
CANCEL instead clears both fields with zero send invocations. -/
theorem C1_confirm_round_trip (s : Session) (c c2 c3 : Collab)
    (p p2 p3 : ParsedIntent) (ref content mid : List Char) (em : EmailRec)
    (hidle : s.pending_action = none)
    (hp : p.intent = Intent.REPLY)
    (href : p.params.email_ref = some ref)
    (hcontent : p.params.reply_content = some content)
    (hresolve : resolve_email_reference ref s.emails_cache = some em)
    (hp2 : p2.intent = Intent.CONFIRM)
    (hsend : c2.sendRes = .ok mid)
    (hp3 : p3.intent = Intent.CANCEL) :
    (process_parsed p s c).sess.pending_action = some "send".toList ∧
    (process_parsed p s c).sess.pending_data =
      some { email_id := em.id, email := em, reply_body := some content } ∧
    (process_parsed p s c).effs = [] ∧
    (process_parsed p s c).resp.type = "draft".toList ∧
    (process_parsed p s c).resp.pending_action = some "send".toList ∧
    (process_parsed p2 (process_parsed p s c).sess c2).effs =
      [Effect.send em.sender_email ("Re: ".toList ++ em.subject) content em.id] ∧
    (process_parsed p2 (process_parsed p s c).sess c2).sess.pending_action = none ∧
    (process_parsed p2 (process_parsed p s c).sess c2).sess.pending_data = none ∧
    (process_parsed p2 (process_parsed p s c).sess c2).resp.type = "text".toList ∧
    (process_parsed p2 (process_parsed p s c).sess c2).resp.message =
      "✅ Reply sent to ".toList ++ em.sender_name ++ "!".toList ∧
    (process_parsed p3 (process_parsed p s c).sess c3).effs = [] ∧
    (process_parsed p3 (process_parsed p s c).sess c3).sess.pending_action = none ∧
    (process_parsed p3 (process_parsed p s c).sess c3).sess.pending_data = none ∧
    (process_parsed p3 (process_parsed p s c).sess c3).resp.type = "text".toList := by
  have hg1 : ¬ (p.confidence < CONFIDENCE_THRESHOLD_LOW ∧ p.intent = Intent.UNKNOWN) := by
    rw [hp]
    rintro ⟨-, hbad⟩
    exact absurd hbad (by decide)
  have hg2 : ¬ (p2.confidence < CONFIDENCE_THRESHOLD_LOW ∧ p2.intent = Intent.UNKNOWN) := by
    rw [hp2]
    rintro ⟨-, hbad⟩
    exact absurd hbad (by decide)
  have hg3 : ¬ (p3.confidence < CONFIDENCE_THRESHOLD_LOW ∧ p3.intent = Intent.UNKNOWN) := by
    rw [hp3]
    rintro ⟨-, hbad⟩
    exact absurd hbad (by decide)
  have h1 : process_parsed p s c = handle_reply p s c := by
    unfold process_parsed
    rw [if_neg hg1]
    unfold handle_intent
    rw [hp]
  have hsess1 : (handle_reply p s c).sess = { s with
      pending_action := some "send".toList,
      pending_data := some ⟨em.id, em, some content⟩ } := by
    simp [handle_reply, href, hresolve, hcontent]
  have heffs1 : (handle_reply p s c).effs = [] := by
    simp [handle_reply, href, hresolve, hcontent]
  have htype1 : (handle_reply p s c).resp.type = "draft".toList := by
    simp [handle_reply, href, hresolve, hcontent]
  have hpa1 : (handle_reply p s c).resp.pending_action = some "send".toList := by
    simp [handle_reply, href, hresolve, hcontent]
  have h2 : ∀ s' c', process_parsed p2 s' c' = handle_confirm s' c' := by
    intro s' c'
    unfold process_parsed
    rw [if_neg hg2]
    unfold handle_intent
    rw [hp2]
  have h3 : ∀ s' c', process_parsed p3 s' c' = handle_cancel s' := by
    intro s' c'
    unfold process_parsed
    rw [if_neg hg3]
    unfold handle_intent
    rw [hp3]
  rw [h1, hsess1, h2, h3]
  refine ⟨by simp, by simp, heffs1, htype1, hpa1, ?_, ?_, ?_, ?_, ?_, ?_, ?_, ?_, ?_⟩ <;>
    simp [handle_confirm, handle_cancel, hsend, textResponse]

/-- Witness for C1 along the concrete round trip. -/
theorem C1_witness :
    (process_parsed pReply1 sessIdle collab0).sess.pending_action = some "send".toList ∧
    (process_parsed pConfirm (process_parsed pReply1 sessIdle collab0).sess collab0).effs =
      [Effect.send em1.sender_email ("Re: ".toList ++ em1.subject) "Thanks!".toList
        em1.id] ∧
    (process_parsed pCancel (process_parsed pReply1 sessIdle collab0).sess collab0).effs =
      [] := by
  have h := C1_confirm_round_trip sessIdle collab0 collab0 collab0 pReply1 pConfirm pCancel
    "1".toList "Thanks!".toList "mid1".toList em1 rfl rfl rfl rfl (by decide) rfl rfl rfl
  exact ⟨h.1, h.2.2.2.2.2.1, h.2.2.2.2.2.2.2.2.2.2.1⟩

end InboxAI
